import Mathlib

set_option autoImplicit false

/-!
Shallow embedding of `src/pagerduty_mcp_server/escalation_policies.py`.

The module under verification exposes three operations over a remote
escalation-policy resource: `list_escalation_policies`,
`show_escalation_policy` and `fetch_escalation_policy_ids`.  The external
collaborators (the API client of `client.py` and the normalizer of
`parsers.py`, which are outside this module) are modelled as an explicit
environment of response functions; the envelope builder and the error
router of `utils.py` are modelled from the specification.  Each operation
returns the `Except` result of the Python function together with the list
of its observable events (obtaining the API client, issuing a network
request) in the order they happen, so that statements such as "raised
before any network call" are expressible.
-/

/-- JSON-like values: the shape of request bodies, records and envelopes. -/
inductive JValue where
  | jnull
  | jstr (s : String)
  | jint (n : Int)
  | jlist (xs : List JValue)
  | jobj (fields : List (String × JValue))
  deriving Repr

/-- Values a query parameter can take in this module. -/
inductive PValue where
  | pstr (s : String)
  | plist (xs : List String)
  | pint (n : Int)
  deriving Repr, DecidableEq

/-- Python exceptions arising in this module.  `routed e` stands for the
classified typed failure that the shared error router raises from the
caught exception `e`. -/
inductive PyError where
  | valueError (msg : String)
  | runtimeError (msg : String)
  | keyError (k : String)
  | typeError (msg : String)
  | clientError (msg : String)
  | routed (e : PyError)
  deriving Repr, DecidableEq

/-- Network requests the module can issue. -/
inductive Request where
  | listAll (path : String) (params : List (String × PValue))
  | getJson (path : String)
  deriving Repr, DecidableEq

/-- Observable events of a single call, in order of occurrence. -/
inductive Event where
  | gotClient
  | request (r : Request)
  deriving Repr, DecidableEq

/-- Environment of external collaborators: the responses of the API client
(`Client.list_all` and `Client.jget` from `client.py`) and the behavior of
the normalizer `parse_escalation_policy` (from `parsers.py`), each either
returning a value or raising an exception. -/
structure Env where
  listAllResp : String → List (String × PValue) → Except PyError (List JValue)
  jgetResp : String → Except PyError JValue
  parseEscalationPolicy : JValue → Except PyError JValue

/-- Python truthiness of an optional string: `None` and `""` are falsy. -/
def truthyStr : Option String → Bool
  | none => false
  | some s => !s.isEmpty

/-- Python truthiness of an optional list: `None` and `[]` are falsy. -/
def truthyList : Option (List String) → Bool
  | none => false
  | some l => !l.isEmpty

/-- Python truthiness of an optional integer: `None` and `0` are falsy. -/
def truthyInt : Option Int → Bool
  | none => false
  | some n => n != 0

/-- Lookup of a key in an ordered field list. -/
def lookupField : List (String × JValue) → String → Option JValue
  | [], _ => none
  | (k, v) :: rest, key => if k = key then some v else lookupField rest key

/-- Python subscription `v[key]`: a missing key raises `KeyError`, and
subscripting a non-dict value by a string raises `TypeError`. -/
def dictAccess (v : JValue) (key : String) : Except PyError JValue :=
  match v with
  | .jobj fields =>
      match lookupField fields key with
      | some x => .ok x
      | none => .error (.keyError key)
  | _ => .error (.typeError "value is not subscriptable by a string key")

/-- Modelled from the spec: `utils.handle_api_error` (the shared error
router `route_api_error` of section 6; `utils.py` is not under `src/`)
classifies an arbitrary caught exception, raises a corresponding typed
failure and never returns.  The classified failure raised from `e` is
represented as `PyError.routed e`. -/
def handle_api_error {α : Type} (e : PyError) : Except PyError α :=
  .error (.routed e)

/-- Modelled from the spec: `utils.api_response_handler` (the envelope
builder `build_response_envelope` of section 6; `utils.py` is not under
`src/`) wraps a list or a single object under the resource name together
with a metadata block whose `count` is the number of results for a list
and 1 for a single object, plus a human-readable description. -/
def api_response_handler (results : JValue) (resource_name : String) : JValue :=
  let count : Int :=
    match results with
    | .jlist xs => xs.length
    | _ => 1
  .jobj [(resource_name, results),
         ("metadata",
          .jobj [("count", .jint count),
                 ("description",
                  .jstr ("Found " ++ toString count ++ " results for resource type "
                          ++ resource_name))])]

/-- Constant `ESCALATION_POLICIES_URL` of the source module. -/
def ESCALATION_POLICIES_URL : String := "/escalation_policies"

/-- Query parameters built by `list_escalation_policies`: each filter is
added only when truthy, in source order. -/
def build_list_params (query : Option String) (user_ids team_ids : Option (List String))
    (limit : Option Int) : List (String × PValue) :=
  (if truthyStr query then [("query", PValue.pstr (query.getD ""))] else [])
    ++ (if truthyList user_ids then [("user_ids[]", PValue.plist (user_ids.getD []))] else [])
    ++ (if truthyList team_ids then [("team_ids[]", PValue.plist (team_ids.getD []))] else [])
    ++ (if truthyInt limit then [("limit", PValue.pint (limit.getD 0))] else [])

/-- Lookup of a key in an ordered parameter list. -/
def lookupParam : List (String × PValue) → String → Option PValue
  | [], _ => none
  | (k, v) :: rest, key => if k = key then some v else lookupParam rest key

/-- Elementwise normalization, the comprehension
`[parse_escalation_policy(result=result) for result in response]`:
evaluated left to right, the first raising element aborts the whole list. -/
def mapParse (env : Env) : List JValue → Except PyError (List JValue)
  | [] => .ok []
  | r :: rest =>
      match env.parseEscalationPolicy r with
      | .error e => .error e
      | .ok p =>
          match mapParse env rest with
          | .error e => .error e
          | .ok ps => .ok (p :: ps)

/-- Embedding of `list_escalation_policies`: obtains the client, builds the
filter parameters, requests the full listing, normalizes every record and
wraps the list in an envelope; any exception raised by the client or by
normalization is routed through `handle_api_error`. -/
def list_escalation_policies (env : Env) (query : Option String)
    (user_ids team_ids : Option (List String)) (limit : Option Int) :
    Except PyError JValue × List Event :=
  let params := build_list_params query user_ids team_ids limit
  let events := [Event.gotClient, Event.request (.listAll ESCALATION_POLICIES_URL params)]
  match env.listAllResp ESCALATION_POLICIES_URL params with
  | .error e => (handle_api_error e, events)
  | .ok response =>
      match mapParse env response with
      | .error e => (handle_api_error e, events)
      | .ok parsed =>
          (.ok (api_response_handler (.jlist parsed) "escalation_policies"), events)

/-- Message of the `RuntimeError` raised by `show_escalation_policy` when
the response body lacks the `escalation_policy` field. -/
def missing_field_msg (policy_id : String) : String :=
  "Failed to fetch escalation policy " ++ policy_id
    ++ ": Response missing \x27escalation_policy\x27 field"

/-- Embedding of `show_escalation_policy`: validates the ID before
obtaining the client, issues one single-resource GET, extracts the
`escalation_policy` field (a `KeyError` there becomes a `RuntimeError`
naming the field and the ID), normalizes the object and wraps it; every
exception of the `try` block is routed through `handle_api_error`, while
the validation `ValueError` is raised directly. -/
def show_escalation_policy (env : Env) (policy_id : Option String) :
    Except PyError JValue × List Event :=
  if !truthyStr policy_id then
    (.error (.valueError "policy_id cannot be empty"), [])
  else
    let pid := policy_id.getD ""
    let path := ESCALATION_POLICIES_URL ++ "/" ++ pid
    let events := [Event.gotClient, Event.request (.getJson path)]
    match env.jgetResp path with
    | .error e => (handle_api_error e, events)
    | .ok response =>
        match dictAccess response "escalation_policy" with
        | .error (.keyError _) =>
            (handle_api_error (.runtimeError (missing_field_msg pid)), events)
        | .error e => (handle_api_error e, events)
        | .ok policy_data =>
            match env.parseEscalationPolicy policy_data with
            | .error e => (handle_api_error e, events)
            | .ok parsed =>
                (.ok (api_response_handler parsed "escalation_policy"), events)

/-- Projection, the comprehension `[result["id"] for result in records]`:
evaluated left to right, the first raising subscription aborts the list. -/
def projectIds : List JValue → Except PyError (List JValue)
  | [] => .ok []
  | r :: rest =>
      match dictAccess r "id" with
      | .error e => .error e
      | .ok i =>
          match projectIds rest with
          | .error e => .error e
          | .ok others => .ok (i :: others)

/-- Embedding of `fetch_escalation_policy_ids`: validates the user ID
before the `try` block, delegates to `list_escalation_policies` with
`user_ids=[user_id]` and no other filter, and projects the `id` field of
every record of the envelope; every exception of the `try` block
(including a failure already routed by the delegated call) is routed
through `handle_api_error`. -/
def fetch_escalation_policy_ids (env : Env) (user_id : Option String) :
    Except PyError (List JValue) × List Event :=
  if !truthyStr user_id then
    (.error (.valueError "user_id cannot be empty"), [])
  else
    let res := list_escalation_policies env none (some [user_id.getD ""]) none none
    match res.1 with
    | .error e => (handle_api_error e, res.2)
    | .ok envelope =>
        match dictAccess envelope "escalation_policies" with
        | .error e => (handle_api_error e, res.2)
        | .ok (.jlist records) =>
            match projectIds records with
            | .error e => (handle_api_error e, res.2)
            | .ok ids => (.ok ids, res.2)
        | .ok _ => (handle_api_error (.typeError "records value is not a list"), res.2)

/-- Value of `envelope["metadata"]["count"]`. -/
def metadata_count (envelope : JValue) : Except PyError JValue :=
  match dictAccess envelope "metadata" with
  | .error e => .error e
  | .ok m => dictAccess m "count"

/-- Sample record with an `id` field. -/
def recEP1 : JValue := .jobj [("id", .jstr "EP1"), ("name", .jstr "Policy one")]

/-- Second sample record with an `id` field. -/
def recEP2 : JValue := .jobj [("id", .jstr "EP2")]

/-- Sample record lacking an `id` field. -/
def recNoId : JValue := .jobj [("name", .jstr "anonymous")]

/-- Environment answering every listing with two records and every
single-resource GET with a body holding the policy under its field, with
an identity normalizer. -/
def envTwo : Env where
  listAllResp := fun _ _ => .ok [recEP1, recEP2]
  jgetResp := fun _ => .ok (.jobj [("escalation_policy", recEP1)])
  parseEscalationPolicy := fun v => .ok v

/-- Environment answering every listing with no records. -/
def envNone : Env where
  listAllResp := fun _ _ => .ok []
  jgetResp := fun _ => .ok (.jobj [])
  parseEscalationPolicy := fun v => .ok v

/-- Environment whose single-resource GET body lacks the
`escalation_policy` field. -/
def envNoField : Env where
  listAllResp := fun _ _ => .ok []
  jgetResp := fun _ => .ok (.jobj [("status", .jstr "ok")])
  parseEscalationPolicy := fun v => .ok v

/-- Environment answering every listing with one well-formed record and
one record lacking an `id` field. -/
def envBadRecord : Env where
  listAllResp := fun _ _ => .ok [recEP1, recNoId]
  jgetResp := fun _ => .ok (.jobj [])
  parseEscalationPolicy := fun v => .ok v

/-- Helper: a non-empty string is truthy. -/
theorem truthyStr_some {s : String} (h : s ≠ "") : truthyStr (some s) = true := by
  have he : s.isEmpty = false := by
    cases hs : s.isEmpty
    · rfl
    · exact absurd ((String.isEmpty_iff s).mp hs) h
  simp [truthyStr, he]

/-- Claim C1: show_escalation_policy called with an empty or absent
policy_id raises the invalid-argument ValueError synchronously, with no
observable event at all (so before obtaining the API client and before
any network request), and the raised error is the bare ValueError, never
one routed through the shared error router. -/
theorem show_escalation_policy_empty_id (env : Env) (policy_id : Option String)
    (h : truthyStr policy_id = false) :
    show_escalation_policy env policy_id
      = (.error (.valueError "policy_id cannot be empty"), [])
    ∧ ∀ e, (show_escalation_policy env policy_id).1 ≠ .error (.routed e) := by
  unfold show_escalation_policy
  simp [h]

/-- Witness for C1 at the concrete input policy_id = some "". -/
theorem show_escalation_policy_empty_id_witness :
    truthyStr (some "") = false
    ∧ (show_escalation_policy envTwo (some "")
        = (.error (.valueError "policy_id cannot be empty"), [])
      ∧ ∀ e, (show_escalation_policy envTwo (some "")).1 ≠ .error (.routed e)) :=
  ⟨by decide, show_escalation_policy_empty_id envTwo (some "") (by decide)⟩

/-- Claim C2: for a non-empty policy_id whose single-resource GET succeeds
with a body containing the escalation_policy field, and whose extracted
object normalizes to a record, show_escalation_policy obtains the client
and issues exactly one network request, a GET of
/escalation_policies/policy_id, and returns an envelope keyed
escalation_policy holding the normalized object, with metadata count
equal to 1. -/
theorem show_escalation_policy_success (env : Env) (s : String) (h : s ≠ "")
    (body policy : JValue) (fields : List (String × JValue))
    (hresp : env.jgetResp (ESCALATION_POLICIES_URL ++ "/" ++ s) = .ok body)
    (hfield : dictAccess body "escalation_policy" = .ok policy)
    (hparse : env.parseEscalationPolicy policy = .ok (.jobj fields)) :
    show_escalation_policy env (some s)
      = (.ok (api_response_handler (.jobj fields) "escalation_policy"),
         [Event.gotClient,
          Event.request (.getJson (ESCALATION_POLICIES_URL ++ "/" ++ s))])
    ∧ dictAccess (api_response_handler (.jobj fields) "escalation_policy")
        "escalation_policy" = .ok (.jobj fields)
    ∧ metadata_count (api_response_handler (.jobj fields) "escalation_policy")
        = .ok (.jint 1) := by
  refine ⟨?_, by simp [api_response_handler, dictAccess, lookupField], by rfl⟩
  unfold show_escalation_policy
  simp [truthyStr_some h, hresp, hfield, hparse]

/-- Witness for C2 at the concrete environment envTwo and
policy_id = some "P1". -/
theorem show_escalation_policy_success_witness :
    ("P1" : String) ≠ ""
    ∧ envTwo.jgetResp (ESCALATION_POLICIES_URL ++ "/" ++ "P1")
        = .ok (.jobj [("escalation_policy", recEP1)])
    ∧ dictAccess (.jobj [("escalation_policy", recEP1)]) "escalation_policy" = .ok recEP1
    ∧ envTwo.parseEscalationPolicy recEP1
        = .ok (.jobj [("id", .jstr "EP1"), ("name", .jstr "Policy one")])
    ∧ (show_escalation_policy envTwo (some "P1")
        = (.ok (api_response_handler
                 (.jobj [("id", .jstr "EP1"), ("name", .jstr "Policy one")])
                 "escalation_policy"),
           [Event.gotClient,
            Event.request (.getJson (ESCALATION_POLICIES_URL ++ "/" ++ "P1"))])
      ∧ dictAccess (api_response_handler
                     (.jobj [("id", .jstr "EP1"), ("name", .jstr "Policy one")])
                     "escalation_policy") "escalation_policy"
          = .ok (.jobj [("id", .jstr "EP1"), ("name", .jstr "Policy one")])
      ∧ metadata_count (api_response_handler
                         (.jobj [("id", .jstr "EP1"), ("name", .jstr "Policy one")])
                         "escalation_policy")
          = .ok (.jint 1)) :=
  ⟨by decide, rfl, rfl, rfl,
   show_escalation_policy_success envTwo "P1" (by decide)
     (.jobj [("escalation_policy", recEP1)]) recEP1
     [("id", .jstr "EP1"), ("name", .jstr "Policy one")] rfl rfl rfl⟩

/-- Claim C3: for a non-empty policy_id whose single-resource GET succeeds
with a body lacking the escalation_policy field, show_escalation_policy
fails with the routed request-processing RuntimeError whose message names
both the missing field and the requested policy_id, not with a
ValueError, and the normalizer is never consulted: the whole outcome is
unchanged under every normalizer. -/
theorem show_escalation_policy_missing_field (env : Env) (s : String) (h : s ≠ "")
    (body : JValue)
    (hresp : env.jgetResp (ESCALATION_POLICIES_URL ++ "/" ++ s) = .ok body)
    (hfield : dictAccess body "escalation_policy"
        = .error (.keyError "escalation_policy")) :
    (show_escalation_policy env (some s)).1
      = .error (.routed (.runtimeError
          ("Failed to fetch escalation policy " ++ s
            ++ ": Response missing \x27escalation_policy\x27 field")))
    ∧ ∀ p, show_escalation_policy { env with parseEscalationPolicy := p } (some s)
        = show_escalation_policy env (some s) := by
  constructor
  · unfold show_escalation_policy
    simp [truthyStr_some h, hresp, hfield, handle_api_error, missing_field_msg]
  · intro p
    unfold show_escalation_policy
    simp [truthyStr_some h, hresp, hfield]

/-- Witness for C3 at the concrete environment envNoField and
policy_id = some "P9". -/
theorem show_escalation_policy_missing_field_witness :
    ("P9" : String) ≠ ""
    ∧ envNoField.jgetResp (ESCALATION_POLICIES_URL ++ "/" ++ "P9")
        = .ok (.jobj [("status", .jstr "ok")])
    ∧ dictAccess (.jobj [("status", .jstr "ok")]) "escalation_policy"
        = .error (.keyError "escalation_policy")
    ∧ ((show_escalation_policy envNoField (some "P9")).1
        = .error (.routed (.runtimeError
            ("Failed to fetch escalation policy " ++ "P9"
              ++ ": Response missing \x27escalation_policy\x27 field")))
      ∧ ∀ p, show_escalation_policy { envNoField with parseEscalationPolicy := p }
            (some "P9")
          = show_escalation_policy envNoField (some "P9")) :=
  ⟨by decide, rfl, rfl,
   show_escalation_policy_missing_field envNoField "P9" (by decide)
     (.jobj [("status", .jstr "ok")]) rfl rfl⟩

/-- Helper: a non-empty list is truthy. -/
theorem truthyList_some {l : List String} (h : l ≠ []) : truthyList (some l) = true := by
  cases l with
  | nil => exact absurd rfl h
  | cons a t => rfl

/-- Helper: a non-zero integer is truthy. -/
theorem truthyInt_some {n : Int} (h : n ≠ 0) : truthyInt (some n) = true := by
  simp [truthyInt, h]

/-- Claim C4: for every combination of the other filter arguments,
list_escalation_policies called with user_ids = [] (respectively
team_ids = []) behaves identically to the same call with no user_ids
(respectively team_ids) argument, while a non-empty collection is
included in the parameters as the corresponding array-style filter. -/
theorem list_escalation_policies_empty_collections (env : Env)
    (query : Option String) (uids tids : Option (List String))
    (limit : Option Int) (l : List String) (hl : l ≠ []) :
    (list_escalation_policies env query (some []) tids limit
      = list_escalation_policies env query none tids limit)
    ∧ (list_escalation_policies env query uids (some []) limit
      = list_escalation_policies env query uids none limit)
    ∧ lookupParam (build_list_params query (some l) tids limit) "user_ids[]"
        = some (.plist l)
    ∧ lookupParam (build_list_params query uids (some l) limit) "team_ids[]"
        = some (.plist l) := by
  refine ⟨?_, ?_, ?_, ?_⟩
  · simp [list_escalation_policies, build_list_params, truthyList]
  · simp [list_escalation_policies, build_list_params, truthyList]
  · cases hq : truthyStr query <;>
      simp [build_list_params, hq, truthyList_some hl, lookupParam]
  · cases hq : truthyStr query <;> cases hu : truthyList uids <;>
      simp [build_list_params, hq, hu, truthyList_some hl, lookupParam]

/-- Witness for C4 at concrete filters and the non-empty list l = [U1]. -/
theorem list_escalation_policies_empty_collections_witness :
    (["U1"] : List String) ≠ []
    ∧ ((list_escalation_policies envTwo (some "q") (some []) (some ["T1"]) (some 3)
        = list_escalation_policies envTwo (some "q") none (some ["T1"]) (some 3))
      ∧ (list_escalation_policies envTwo (some "q") (some ["U9"]) (some []) (some 3)
        = list_escalation_policies envTwo (some "q") (some ["U9"]) none (some 3))
      ∧ lookupParam (build_list_params (some "q") (some ["U1"]) (some ["T1"]) (some 3))
          "user_ids[]" = some (.plist ["U1"])
      ∧ lookupParam (build_list_params (some "q") (some ["U9"]) (some ["U1"]) (some 3))
          "team_ids[]" = some (.plist ["U1"])) :=
  ⟨by decide,
   list_escalation_policies_empty_collections envTwo (some "q") (some ["U9"])
     (some ["T1"]) (some 3) ["U1"] (by decide)⟩

/-- Claim C7: a truthy (present, non-zero) limit is included unchanged in
the request parameters of list_escalation_policies, and a limit of zero
produces exactly the same call outcome as an absent limit. -/
theorem list_escalation_policies_limit (env : Env) (query : Option String)
    (uids tids : Option (List String)) (n : Int) (hn : n ≠ 0) :
    lookupParam (build_list_params query uids tids (some n)) "limit"
        = some (.pint n)
    ∧ list_escalation_policies env query uids tids (some 0)
      = list_escalation_policies env query uids tids none := by
  constructor
  · cases hq : truthyStr query <;> cases hu : truthyList uids <;>
      cases ht : truthyList tids <;>
      simp [build_list_params, hq, hu, ht, truthyInt_some hn, lookupParam]
  · simp [list_escalation_policies, build_list_params, truthyInt]

/-- Witness for C7 at concrete filters and the non-zero limit n = 5. -/
theorem list_escalation_policies_limit_witness :
    (5 : Int) ≠ 0
    ∧ (lookupParam (build_list_params (some "q") (some ["U1"]) none (some 5)) "limit"
        = some (.pint 5)
      ∧ list_escalation_policies envTwo (some "q") (some ["U1"]) none (some 0)
        = list_escalation_policies envTwo (some "q") (some ["U1"]) none none) :=
  ⟨by decide,
   list_escalation_policies_limit envTwo (some "q") (some ["U1"]) none 5 (by decide)⟩

/-- Claim C8: list_escalation_policies with no arguments builds an empty
query-parameter set, and a successful call (listing and normalization
both succeed) returns, after exactly one listing request, an envelope
whose escalation_policies list has length equal to its metadata count. -/
theorem list_escalation_policies_count (env : Env) (query : Option String)
    (uids tids : Option (List String)) (limit : Option Int)
    (rs parsed : List JValue)
    (hresp : env.listAllResp ESCALATION_POLICIES_URL
        (build_list_params query uids tids limit) = .ok rs)
    (hparse : mapParse env rs = .ok parsed) :
    build_list_params none none none none = []
    ∧ list_escalation_policies env query uids tids limit
        = (.ok (api_response_handler (.jlist parsed) "escalation_policies"),
           [Event.gotClient,
            Event.request (.listAll ESCALATION_POLICIES_URL
              (build_list_params query uids tids limit))])
    ∧ dictAccess (api_response_handler (.jlist parsed) "escalation_policies")
        "escalation_policies" = .ok (.jlist parsed)
    ∧ metadata_count (api_response_handler (.jlist parsed) "escalation_policies")
        = .ok (.jint (parsed.length : Int)) := by
  refine ⟨rfl, ?_, ?_, ?_⟩
  · unfold list_escalation_policies
    simp [hresp, hparse]
  · simp [api_response_handler, dictAccess, lookupField]
  · simp [metadata_count, api_response_handler, dictAccess, lookupField]

/-- Witness for C8 at the concrete environment envTwo with no filters. -/
theorem list_escalation_policies_count_witness :
    envTwo.listAllResp ESCALATION_POLICIES_URL
        (build_list_params none none none none) = .ok [recEP1, recEP2]
    ∧ mapParse envTwo [recEP1, recEP2] = .ok [recEP1, recEP2]
    ∧ (build_list_params none none none none = []
      ∧ list_escalation_policies envTwo none none none none
          = (.ok (api_response_handler (.jlist [recEP1, recEP2])
                   "escalation_policies"),
             [Event.gotClient,
              Event.request (.listAll ESCALATION_POLICIES_URL
                (build_list_params none none none none))])
      ∧ dictAccess (api_response_handler (.jlist [recEP1, recEP2])
            "escalation_policies") "escalation_policies"
          = .ok (.jlist [recEP1, recEP2])
      ∧ metadata_count (api_response_handler (.jlist [recEP1, recEP2])
            "escalation_policies")
          = .ok (.jint (([recEP1, recEP2] : List JValue).length : Int))) :=
  ⟨rfl, rfl,
   list_escalation_policies_count envTwo none none none none
     [recEP1, recEP2] [recEP1, recEP2] rfl rfl⟩

/-- Claim C9: every call of list_escalation_policies either returns the
well-formed envelope of a fully normalized list, or fails with a routed
classified failure whose underlying exception is exactly the one raised
by the listing request or by normalization; no partial envelope and no
swallowed failure is possible. -/
theorem list_escalation_policies_total (env : Env) (query : Option String)
    (uids tids : Option (List String)) (limit : Option Int) :
    (∃ parsed : List JValue,
        (list_escalation_policies env query uids tids limit).1
          = .ok (api_response_handler (.jlist parsed) "escalation_policies"))
    ∨ (∃ e : PyError,
        (list_escalation_policies env query uids tids limit).1
          = .error (.routed e)
        ∧ (env.listAllResp ESCALATION_POLICIES_URL
              (build_list_params query uids tids limit) = .error e
          ∨ ∃ rs, env.listAllResp ESCALATION_POLICIES_URL
                (build_list_params query uids tids limit) = .ok rs
              ∧ mapParse env rs = .error e)) := by
  cases hr : env.listAllResp ESCALATION_POLICIES_URL
      (build_list_params query uids tids limit) with
  | error e =>
      right
      exact ⟨e, by simp [list_escalation_policies, hr, handle_api_error], .inl rfl⟩
  | ok rs =>
      cases hp : mapParse env rs with
      | error e =>
          right
          exact ⟨e, by simp [list_escalation_policies, hr, hp, handle_api_error],
                 .inr ⟨rs, rfl, hp⟩⟩
      | ok parsed =>
          left
          exact ⟨parsed, by simp [list_escalation_policies, hr, hp]⟩

/-- Claim C5: for a non-empty user_id, when the delegated list call
succeeds and the projection of the id field of every record succeeds,
fetch_escalation_policy_ids returns exactly those ids in the order of the
envelope records, and in particular the empty list when there are no
records. -/
theorem fetch_escalation_policy_ids_success (env : Env) (u : String) (hu : u ≠ "")
    (envl : JValue) (ev : List Event) (records ids : List JValue)
    (hlist : list_escalation_policies env none (some [u]) none none = (.ok envl, ev))
    (hrecords : dictAccess envl "escalation_policies" = .ok (.jlist records))
    (hids : projectIds records = .ok ids) :
    fetch_escalation_policy_ids env (some u) = (.ok ids, ev)
    ∧ (records = [] → ids = []) := by
  constructor
  · unfold fetch_escalation_policy_ids
    simp [truthyStr_some hu, hlist, hrecords, hids]
  · intro h
    subst h
    simp only [projectIds] at hids
    exact (Except.ok.inj hids).symm

/-- Witness for C5 at the concrete environment envTwo and
user_id = some "U1", where the delegated call returns records with ids
EP1 and EP2 in that order. -/
theorem fetch_escalation_policy_ids_success_witness :
    ("U1" : String) ≠ ""
    ∧ list_escalation_policies envTwo none (some ["U1"]) none none
        = (.ok (api_response_handler (.jlist [recEP1, recEP2])
                 "escalation_policies"),
           [Event.gotClient,
            Event.request (.listAll ESCALATION_POLICIES_URL
              [("user_ids[]", PValue.plist ["U1"])])])
    ∧ dictAccess (api_response_handler (.jlist [recEP1, recEP2])
          "escalation_policies") "escalation_policies"
        = .ok (.jlist [recEP1, recEP2])
    ∧ projectIds [recEP1, recEP2] = .ok [.jstr "EP1", .jstr "EP2"]
    ∧ (fetch_escalation_policy_ids envTwo (some "U1")
        = (.ok [.jstr "EP1", .jstr "EP2"],
           [Event.gotClient,
            Event.request (.listAll ESCALATION_POLICIES_URL
              [("user_ids[]", PValue.plist ["U1"])])])
      ∧ (([recEP1, recEP2] : List JValue) = []
          → ([.jstr "EP1", .jstr "EP2"] : List JValue) = [])) :=
  ⟨by decide, rfl, rfl, rfl,
   fetch_escalation_policy_ids_success envTwo "U1" (by decide)
     (api_response_handler (.jlist [recEP1, recEP2]) "escalation_policies")
     [Event.gotClient,
      Event.request (.listAll ESCALATION_POLICIES_URL
        [("user_ids[]", PValue.plist ["U1"])])]
     [recEP1, recEP2] [.jstr "EP1", .jstr "EP2"] rfl rfl rfl⟩

/-- Counterexample to claim C6: at the concrete input user_id = some "",
fetch_escalation_policy_ids raises the bare invalid-argument ValueError
with no event, and its result is not a routed failure for any exception,
so the validation error is not caught by the surrounding handler and not
re-wrapped through the shared error router. -/
theorem fetch_escalation_policy_ids_empty_id_counterexample :
    fetch_escalation_policy_ids envTwo (some "")
      = (.error (.valueError "user_id cannot be empty"), [])
    ∧ ∀ e, (fetch_escalation_policy_ids envTwo (some "")).1
        ≠ .error (.routed e) := by
  constructor
  · rfl
  · intro e h
    have h2 : (Except.error (PyError.valueError "user_id cannot be empty") :
          Except PyError (List JValue))
        = Except.error (PyError.routed e) := h
    exact PyError.noConfusion (Except.error.inj h2)

/-- Claim C6 as amended: in fetch_escalation_policy_ids, the
invalid-argument ValueError for an empty or absent user_id is raised
before the try block and propagates directly to the caller, without any
event and without passing through the shared error router. -/
theorem fetch_escalation_policy_ids_empty_id (env : Env) (user_id : Option String)
    (h : truthyStr user_id = false) :
    fetch_escalation_policy_ids env user_id
      = (.error (.valueError "user_id cannot be empty"), [])
    ∧ ∀ e, (fetch_escalation_policy_ids env user_id).1
        ≠ .error (.routed e) := by
  unfold fetch_escalation_policy_ids
  simp [h]

/-- Witness for the amended claim C6 at the concrete input
user_id = none. -/
theorem fetch_escalation_policy_ids_empty_id_witness :
    truthyStr none = false
    ∧ (fetch_escalation_policy_ids envNone none
        = (.error (.valueError "user_id cannot be empty"), [])
      ∧ ∀ e, (fetch_escalation_policy_ids envNone none).1
          ≠ .error (.routed e)) :=
  ⟨rfl, fetch_escalation_policy_ids_empty_id envNone none rfl⟩

/-- Helper: the projection raises when some record lacks an id field. -/
theorem projectIds_error_of_missing {records : List JValue}
    (h : ∃ r ∈ records, ∃ err, dictAccess r "id" = .error err) :
    ∃ e, projectIds records = .error e := by
  induction records with
  | nil =>
      rcases h with ⟨r, hr, _⟩
      cases hr
  | cons a rest ih =>
      rcases h with ⟨r, hr, err, herr⟩
      rcases List.mem_cons.mp hr with rfl | hmem
      · exact ⟨err, by simp [projectIds, herr]⟩
      · cases ha : dictAccess a "id" with
        | error e => exact ⟨e, by simp [projectIds, ha]⟩
        | ok v =>
            rcases ih ⟨r, hmem, err, herr⟩ with ⟨e, he⟩
            exact ⟨e, by simp [projectIds, ha, he]⟩

/-- Claim C10: for a non-empty user_id, when the delegated list call
succeeds but some record of the envelope lacks an id field, the
projection raises and fetch_escalation_policy_ids returns no partial
list: the exception is caught by the surrounding handler and surfaces as
a routed failure. -/
theorem fetch_escalation_policy_ids_missing_id (env : Env) (u : String) (hu : u ≠ "")
    (envl : JValue) (ev : List Event) (records : List JValue)
    (hlist : list_escalation_policies env none (some [u]) none none = (.ok envl, ev))
    (hrecords : dictAccess envl "escalation_policies" = .ok (.jlist records))
    (hbad : ∃ r ∈ records, ∃ err, dictAccess r "id" = .error err) :
    ∃ e, projectIds records = .error e
      ∧ fetch_escalation_policy_ids env (some u) = (.error (.routed e), ev) := by
  rcases projectIds_error_of_missing hbad with ⟨e, he⟩
  refine ⟨e, he, ?_⟩
  unfold fetch_escalation_policy_ids
  simp [truthyStr_some hu, hlist, hrecords, he, handle_api_error]

/-- Witness for C10 at the concrete environment envBadRecord and
user_id = some "U1", where the second record lacks an id field. -/
theorem fetch_escalation_policy_ids_missing_id_witness :
    ("U1" : String) ≠ ""
    ∧ list_escalation_policies envBadRecord none (some ["U1"]) none none
        = (.ok (api_response_handler (.jlist [recEP1, recNoId])
                 "escalation_policies"),
           [Event.gotClient,
            Event.request (.listAll ESCALATION_POLICIES_URL
              [("user_ids[]", PValue.plist ["U1"])])])
    ∧ dictAccess (api_response_handler (.jlist [recEP1, recNoId])
          "escalation_policies") "escalation_policies"
        = .ok (.jlist [recEP1, recNoId])
    ∧ (∃ r ∈ ([recEP1, recNoId] : List JValue),
        ∃ err, dictAccess r "id" = .error err)
    ∧ ∃ e, projectIds [recEP1, recNoId] = .error e
        ∧ fetch_escalation_policy_ids envBadRecord (some "U1")
            = (.error (.routed e),
               [Event.gotClient,
                Event.request (.listAll ESCALATION_POLICIES_URL
                  [("user_ids[]", PValue.plist ["U1"])])]) :=
  ⟨by decide, rfl, rfl,
   ⟨recNoId, List.mem_cons_of_mem recEP1 (List.mem_cons_self recNoId []),
    .keyError "id", rfl⟩,
   fetch_escalation_policy_ids_missing_id envBadRecord "U1" (by decide)
     (api_response_handler (.jlist [recEP1, recNoId]) "escalation_policies")
     [Event.gotClient,
      Event.request (.listAll ESCALATION_POLICIES_URL
        [("user_ids[]", PValue.plist ["U1"])])]
     [recEP1, recNoId] rfl rfl
     ⟨recNoId, List.mem_cons_of_mem recEP1 (List.mem_cons_self recNoId []),
      .keyError "id", rfl⟩⟩

